import Mathlib

/-!
Verification of the nrsc5 GUI core (`nrsc5_gui_qt.py`): a shallow embedding of
the start/stop/record state machine, the process-event classification, the BER
diagnostic parsing pipeline and the preset import/export, together with proofs
of the specified properties.
-/

namespace Nrsc5Gui

/-! ### Character-level helpers for the diagnostic-line parsing

`float()` in Python and the regular expression
`BER:\s*([0-9]*\.?[0-9eE+-]+)` (source line 303) are modelled on `List Char`.
-/

def isDigitChar (c : Char) : Bool := '0' ≤ c && c ≤ '9'

def digitVal (c : Char) : Nat := c.toNat - '0'.toNat

def digitsVal (cs : List Char) : Nat :=
  cs.foldl (fun a c => 10 * a + digitVal c) 0

/-- Python `float()` on the restricted alphabet `[0-9.eE+-]` that the
diagnostic regex groups can produce: optional sign, mantissa with at least one
digit and an optional decimal point, optional exponent.  Returns `none` exactly
when `float()` raises `ValueError`. -/
def pyFloat (cs : List Char) : Option ℚ :=
  let sgnRest : ℚ × List Char :=
    match cs with
    | '+' :: t => (1, t)
    | '-' :: t => (-1, t)
    | _ => (1, cs)
  let sgn := sgnRest.1
  let cs1 := sgnRest.2
  let ip := cs1.takeWhile isDigitChar
  let r1 := cs1.dropWhile isDigitChar
  let fpRest : List Char × List Char :=
    match r1 with
    | '.' :: t => (t.takeWhile isDigitChar, t.dropWhile isDigitChar)
    | _ => ([], r1)
  let fp := fpRest.1
  let r2 := fpRest.2
  if ip.isEmpty && fp.isEmpty then none
  else
    let mant : ℚ := sgn * ((digitsVal ip : ℚ) + (digitsVal fp : ℚ) / (10 ^ fp.length))
    match r2 with
    | [] => some mant
    | e :: t =>
      if e = 'e' ∨ e = 'E' then
        let esgnRest : Int × List Char :=
          match t with
          | '+' :: u => (1, u)
          | '-' :: u => (-1, u)
          | _ => (1, t)
        let ed := esgnRest.2.takeWhile isDigitChar
        let r3 := esgnRest.2.dropWhile isDigitChar
        if ed.isEmpty ∨ ¬ r3.isEmpty then none
        else some (mant * (10 : ℚ) ^ (esgnRest.1 * (digitsVal ed : Int)))
      else none

def isSpaceChar (c : Char) : Bool :=
  c = ' ' || c = '\t' || c = '\n' || c = '\r' || c = '\x0b' || c = '\x0c'

/-- Characters of the regex class `[0-9eE+-]`. -/
def isBerClassChar (c : Char) : Bool :=
  isDigitChar c || c = 'e' || c = 'E' || c = '+' || c = '-'

/-- Match the group `[0-9]*\.?[0-9eE+-]+` at the start of `cs` with the Python
greedy-with-backtracking semantics, returning the captured text. -/
def berGroup (cs : List Char) : Option (List Char) :=
  let ds := cs.takeWhile isDigitChar
  let r := cs.dropWhile isDigitChar
  match r with
  | '.' :: t =>
    let bs := t.takeWhile isBerClassChar
    if bs.isEmpty then (if ds.isEmpty then none else some ds)
    else some (ds ++ '.' :: bs)
  | _ =>
    let bs := r.takeWhile isBerClassChar
    if bs.isEmpty then (if ds.isEmpty then none else some ds)
    else some (ds ++ bs)

/-- Try the full pattern `BER:\s*([0-9]*\.?[0-9eE+-]+)` anchored at the start
of `cs`. -/
def matchBerAt (cs : List Char) : Option (List Char) :=
  match cs with
  | 'B' :: 'E' :: 'R' :: ':' :: rest => berGroup (rest.dropWhile isSpaceChar)
  | _ => none

/-- `re.search` of the BER pattern: leftmost match wins. -/
def berSearch : List Char → Option (List Char)
  | [] => none
  | c :: t =>
    match matchBerAt (c :: t) with
    | some g => some g
    | none => berSearch t

/-! ### BER series (source `_update_ber_graph`, lines 728–748) -/

def berMaxPoints : Nat := 300

/-- The ring-buffer update of `_update_ber_graph`: append the new percent
value, then keep only the last 300 samples (`self.ber_history[-300:]`). -/
def update_ber_graph (hist : List ℚ) (v : ℚ) : List ℚ :=
  if berMaxPoints < (hist ++ [v]).length then
    (hist ++ [v]).drop ((hist ++ [v]).length - berMaxPoints)
  else hist ++ [v]

/-- The BER branch of `_parse_metadata_output` for one stripped non-blank
line: search the BER regex, `float()` the group, store `value * 100`. -/
def processBerLine (hist : List ℚ) (line : String) : List ℚ :=
  match berSearch line.data with
  | none => hist
  | some g =>
    match pyFloat g with
    | none => hist
    | some v => update_ber_graph hist (v * 100)

/-! ### Station location update (source lines 711–723)

The three regex groups are `float()`ed inside one `try` block and the three
`self.station_*` fields are assigned only after all three parses succeed. -/

structure StationPoint where
  lat : Option ℚ
  lon : Option ℚ
  alt : Option ℚ
deriving DecidableEq

def station_update (p : StationPoint) (g1 g2 g3 : String) : StationPoint :=
  match pyFloat g1.data, pyFloat g2.data, pyFloat g3.data with
  | some la, some lo, some al => { lat := some la, lon := some lo, alt := some al }
  | _, _, _ => p

/-! ### Process events (Qt enumerations used by the handlers) -/

inductive ProcError where
  | failedToStart
  | crashed
  | timedout
  | writeError
  | readError
  | unknownError
deriving DecidableEq

/-- The `err_map` of `_on_process_error` (source lines 604–611). -/
def errMsg : ProcError → String
  | .failedToStart => "Failed to start"
  | .crashed => "Crashed"
  | .timedout => "Timed out"
  | .writeError => "Write error"
  | .readError => "Read error"
  | .unknownError => "Unknown error"

/-- Numeric values of `QProcess.ProcessError` (used by `int(error)` in the log
line). -/
def errCode : ProcError → Nat
  | .failedToStart => 0
  | .crashed => 1
  | .timedout => 2
  | .readError => 3
  | .writeError => 4
  | .unknownError => 5

inductive ExitStatus where
  | normalExit
  | crashExit
deriving DecidableEq

/-! ### GUI state

The fields of `NRSC5Gui` that the verified operations read or write.  Process
objects are modelled as handles (`Option Nat`, allocated from `nextHandle`).
Three ghost fields instrument externally visible effects: `warnings` records
every `QMessageBox` shown to the user, `recWrites` records the recorder handle
of every audio write to the recorder consumer, `stops` counts executions of
`stop_stream`, and `intentionalReports` counts events classified as the benign
"terminated (user stop)" report. -/

structure GuiState where
  radio_running : Bool
  recording : Bool
  stopping_radio : Bool
  proc_nrsc5 : Option Nat
  proc_play : Option Nat
  proc_rec : Option Nat
  nextHandle : Nat
  timer_running : Bool
  radio_btn_text : String
  record_btn_text : String
  record_btn_style : String
  record_btn_enabled : Bool
  status_text : String
  record_duration_text : String
  record_start_set : Bool
  ber_history : List ℚ
  station : StationPoint
  log : List String
  warnings : List String
  recWrites : List Nat
  stops : Nat
  intentionalReports : Nat
deriving DecidableEq

/-- The state built by `__init__` (only the modelled fields). -/
def initState : GuiState where
  radio_running := false
  recording := false
  stopping_radio := false
  proc_nrsc5 := none
  proc_play := none
  proc_rec := none
  nextHandle := 0
  timer_running := false
  radio_btn_text := "Start Radio"
  record_btn_text := "Start Recording"
  record_btn_style := ""
  record_btn_enabled := false
  status_text := "Status: Idle"
  record_duration_text := ""
  record_start_set := false
  ber_history := []
  station := ⟨none, none, none⟩
  log := []
  warnings := []
  recWrites := []
  stops := 0
  intentionalReports := 0

/-! ### Process diagnostics handlers (source lines 603–648) -/

/-- `_on_process_error`: during an intentional stop a `Crashed` error is
logged as a benign user stop; every other combination logs the error and, for
the producer, shows a user-visible warning box. -/
def on_process_error (s : GuiState) (name : String) (error : ProcError) : GuiState :=
  let msg := errMsg error
  if s.stopping_radio = true ∧ error = ProcError.crashed then
    { s with log := (name ++ " terminated (user stop).") :: s.log,
             intentionalReports := s.intentionalReports + 1 }
  else
    let s1 := { s with
      log := (name ++ " error: " ++ msg ++ " (" ++ toString (errCode error) ++ ")") :: s.log }
    if name = "nrsc5" then
      { s1 with status_text := "Status: nrsc5 error: " ++ msg,
                warnings := ("nrsc5 error: " ++ msg) :: s1.warnings }
    else s1

/-- `_on_process_finished`: during an intentional stop a `CrashExit` status is
logged as a benign user stop; otherwise the exit is logged with its code and
status. -/
def on_process_finished (s : GuiState) (name : String) (exitCode : Int)
    (exitStatus : ExitStatus) : GuiState :=
  if s.stopping_radio = true ∧ exitStatus = ExitStatus.crashExit then
    { s with log := (name ++ " terminated (user stop).") :: s.log,
             intentionalReports := s.intentionalReports + 1 }
  else
    { s with log := (name ++ " finished with code " ++ toString exitCode ++ ", status: " ++
        (if exitStatus = ExitStatus.normalExit then "normal" else "crashed")) :: s.log }

/-! ### Recording controls (source lines 1095–1182) -/

/-- `stop_recording`: a no-op unless recording; otherwise closes the recorder,
clears the recording flag, resets the button and timer state and drops the
recorder handle. -/
def stop_recording (s : GuiState) : GuiState :=
  if s.recording = false then s
  else
    { s with recording := false,
             record_btn_text := "Start Recording",
             record_btn_style := "",
             timer_running := false,
             record_start_set := false,
             record_duration_text := "",
             status_text := if s.radio_running = true then "Status: Listening" else "Status: Idle",
             proc_rec := none }

/-- `stop_stream` (source lines 1080–1092): stop recording first, tear down
the producer and player handles, clear the running flag and reset the UI.  The
ghost counter `stops` counts its executions. -/
def stop_stream (s : GuiState) : GuiState :=
  let s1 := stop_recording s
  { s1 with proc_nrsc5 := none,
            proc_play := none,
            radio_running := false,
            radio_btn_text := "Start Radio",
            record_btn_enabled := false,
            status_text := "Status: Idle",
            stops := s1.stops + 1 }

/-- `_on_nrsc5_finished` (source lines 641–648): log the exit, then run the
automatic full stop when the producer died on its own while the session was
running and no intentional stop is in progress. -/
def on_nrsc5_finished (s : GuiState) (exitCode : Int) (exitStatus : ExitStatus) : GuiState :=
  let s1 := on_process_finished s "nrsc5" exitCode exitStatus
  if s1.radio_running = true ∧ s1.stopping_radio = false then stop_stream s1 else s1

/-- `start_recording` (source lines 1101–1154): refused unless the radio is
running; spawns the recorder and, only if it started within its 1-second wait,
sets the recording flag, button, status and duration timer.  On a failed start
only a warning is shown; note that the stale recorder handle is kept. -/
def start_recording (recStartOk : Bool) (s : GuiState) : GuiState :=
  if s.radio_running = false then s
  else
    let h := s.nextHandle
    let s1 := { s with proc_rec := some h, nextHandle := h + 1 }
    if recStartOk = true then
      { s1 with recording := true,
                record_btn_text := "Stop Recording",
                status_text := "Status: Listening & Recording",
                record_start_set := true,
                record_duration_text := "00:00:00",
                timer_running := true,
                record_btn_style := "background-color: #ffcccc" }
    else
      { s1 with warnings := "Could not start ffmpeg recorder." :: s1.warnings }

/-! ### Start-input validation (source lines 949–994)

The text fields are modelled by their stripped text together with the result
of the Python numeric conversion applied to that text (`none` when the
conversion raises `ValueError`). -/

structure StartInputs where
  /-- result of `float(freq_text)` on the stripped frequency field -/
  freqVal : Option ℚ
  /-- stripped rtl_tcp host field -/
  host : String
  /-- stripped rtl_tcp port field -/
  portText : String
  /-- result of `int(port_text)`, consulted only when `portText` is non-empty -/
  portVal : Option Int
deriving DecidableEq

/-- `_validate_start_inputs`: returns the warning-box message on failure,
`none` on success. -/
def validate_start_inputs (i : StartInputs) : Option String :=
  match i.freqVal with
  | none => some "Frequency must be a number (MHz)."
  | some freq =>
    if freq ≤ 0 then some "Frequency must be greater than zero."
    else if i.host = "" then none
    else if i.portText = "" then
      some "Port is required when a remote rtl_tcp host is specified."
    else
      match i.portVal with
      | none => some "Port must be an integer."
      | some p =>
        if 1 ≤ p ∧ p ≤ 65535 then none
        else some "Port must be between 1 and 65535."

/-- `_reset_labels` (source lines 1243–1271): the parts that touch modelled
state — station point, BER series, log, timer and duration text. -/
def reset_labels (s : GuiState) : GuiState :=
  { s with record_duration_text := "",
           timer_running := false,
           record_start_set := false,
           station := ⟨none, none, none⟩,
           ber_history := [],
           log := [] }

/-- `_update_ui_state` (source lines 1203–1221), restricted to the modelled
fields. -/
def update_ui_state (running : Bool) (s : GuiState) : GuiState :=
  if running = true then
    if s.recording = false then
      { s with record_btn_enabled := running, status_text := "Status: Listening" }
    else { s with record_btn_enabled := running }
  else { s with record_btn_enabled := running, status_text := "Status: Idle" }

/-- `start_stream` (source lines 996–1078): refuse while running, validate,
spawn the player, then the producer; a producer spawn failure rolls the whole
start back through `stop_stream`.  `playStartOk` and `nrscStartOk` are the
outcomes of the two `waitForStarted` calls. -/
def start_stream (i : StartInputs) (playStartOk nrscStartOk : Bool) (s : GuiState) : GuiState :=
  if s.radio_running = true then s
  else
    match validate_start_inputs i with
    | some msg => { s with warnings := msg :: s.warnings }
    | none =>
      let hp := s.nextHandle
      let s1 := { s with proc_play := some hp, nextHandle := hp + 1 }
      if playStartOk = false then
        { s1 with warnings := "Failed to start ffplay." :: s1.warnings, proc_play := none }
      else
        let hn := s1.nextHandle
        let s2 := { s1 with proc_nrsc5 := some hn, nextHandle := hn + 1 }
        if nrscStartOk = true then
          reset_labels (update_ui_state true
            { s2 with radio_running := true, radio_btn_text := "Stop Radio" })
        else
          stop_stream { s2 with warnings := "Failed to start nrsc5." :: s2.warnings }

/-- `toggle_radio` (source lines 910–924): stop with the intentional-stop
flag raised, or start. -/
def toggle_radio (i : StartInputs) (playStartOk nrscStartOk : Bool) (s : GuiState) : GuiState :=
  if s.radio_running = true then
    let s1 := stop_stream { s with stopping_radio := true }
    { s1 with stopping_radio := false }
  else start_stream i playStartOk nrscStartOk s

/-- `_tune_preset_item` restart path (source lines 423–428): stop under the
intentional-stop flag, clear it, then start with the new parameters. -/
def tune_restart (i : StartInputs) (playStartOk nrscStartOk : Bool) (s : GuiState) : GuiState :=
  if s.radio_running = true then
    let s1 := stop_stream { s with stopping_radio := true }
    start_stream i playStartOk nrscStartOk { s1 with stopping_radio := false }
  else s

/-- `closeEvent` (source lines 1336–1342): force the intentional-stop flag,
then stop the stream. -/
def close_event (s : GuiState) : GuiState :=
  stop_stream { s with stopping_radio := true }

/-- `_distribute_audio_data` (source lines 568–585): forward the producer
audio bytes to the running player, and to the recorder only while the
recording flag is set and the recorder process is running.  `hasData`,
`playRunning` and `recRunning` are the observed conditions; the ghost list
`recWrites` records the recorder handle of each recorder write. -/
def distribute_audio_data (hasData _playRunning recRunning : Bool) (s : GuiState) : GuiState :=
  if s.proc_nrsc5 = none then s
  else if hasData = false then s
  else if s.recording = true then
    match s.proc_rec with
    | some h => if recRunning = true then { s with recWrites := h :: s.recWrites } else s
    | none => s
  else s

/-- `toggle_recording` (source lines 1095–1099). -/
def toggle_recording (recStartOk : Bool) (s : GuiState) : GuiState :=
  if s.recording = true then stop_recording s else start_recording recStartOk s

/-! ### Event system

All state mutation happens on one logical thread in response to discrete
events; an event trace is a list folded over the step function. -/

inductive Event where
  | evStartStream (i : StartInputs) (playStartOk nrscStartOk : Bool)
  | evToggleRadio (i : StartInputs) (playStartOk nrscStartOk : Bool)
  | evTuneRestart (i : StartInputs) (playStartOk nrscStartOk : Bool)
  | evStartRecording (recStartOk : Bool)
  | evStopRecording
  | evToggleRecording (recStartOk : Bool)
  | evNrsc5Finished (exitCode : Int) (exitStatus : ExitStatus)
  | evProcError (name : String) (error : ProcError)
  | evProcFinished (name : String) (exitCode : Int) (exitStatus : ExitStatus)
  | evDistribute (hasData playRunning recRunning : Bool)
  | evClose

def step (s : GuiState) : Event → GuiState
  | .evStartStream i p n => start_stream i p n s
  | .evToggleRadio i p n => toggle_radio i p n s
  | .evTuneRestart i p n => tune_restart i p n s
  | .evStartRecording ok => start_recording ok s
  | .evStopRecording => stop_recording s
  | .evToggleRecording ok => toggle_recording ok s
  | .evNrsc5Finished c st => on_nrsc5_finished s c st
  | .evProcError n e => on_process_error s n e
  | .evProcFinished n c st => on_process_finished s n c st
  | .evDistribute d p r => distribute_audio_data d p r s
  | .evClose => close_event s

/-- Run an event trace from a state. -/
def run (s : GuiState) (es : List Event) : GuiState :=
  es.foldl step s

/-! ### Presets (source lines 430–482)

A preset record is the `{name, freq, prog}` dictionary stored as item data.
`_export_presets` serializes the ordered list of records; `_import_presets`
adds one item per record, skipping records with an empty frequency. -/

structure Preset where
  name : String
  freq : String
  prog : String
deriving DecidableEq

/-- `_export_presets`: the ordered list of records written to the file. -/
def export_presets (l : List Preset) : List Preset := l

/-- `_import_presets`: the ordered list of items added from the parsed file
(records whose `freq` is empty are skipped). -/
def import_presets (data : List Preset) : List Preset :=
  data.filter (fun m => m.freq ≠ "")

/-- `_add_preset` (source lines 379–390): refuses an empty frequency field;
otherwise appends a record whose name defaults to `"<freq> MHz P<prog>"`. -/
def add_preset (l : List Preset) (nameText freqText progText : String) : List Preset :=
  if freqText = "" then l
  else
    let name := if nameText = "" then freqText ++ " MHz P" ++ progText else nameText
    l ++ [⟨name, freqText, progText⟩]

/-! ## Theorems -/

/-! ### BER series (C4) -/

theorem update_ber_graph_eq_drop (hist : List ℚ) (v : ℚ) (h : hist.length ≤ 300) :
    update_ber_graph hist v = (hist ++ [v]).drop (hist.length + 1 - 300) := by
  simp only [update_ber_graph, berMaxPoints, List.length_append, List.length_singleton]
  split_ifs with h1
  · congr 1
  · have h0 : hist.length + 1 - 300 = 0 := by omega
    rw [h0, List.drop_zero]

theorem foldl_update_ber_graph (vs : List ℚ) :
    ∀ hist : List ℚ, hist.length ≤ 300 →
      List.foldl update_ber_graph hist vs =
        (hist ++ vs).drop (hist.length + vs.length - 300) := by
  induction vs with
  | nil =>
    intro hist h
    simp only [List.foldl_nil, List.append_nil, List.length_nil, Nat.add_zero]
    rw [Nat.sub_eq_zero_of_le h, List.drop_zero]
  | cons v vs ih =>
    intro hist h
    have hd : update_ber_graph hist v = (hist ++ [v]).drop (hist.length + 1 - 300) :=
      update_ber_graph_eq_drop hist v h
    have hlen : (update_ber_graph hist v).length = hist.length + 1 - (hist.length + 1 - 300) := by
      rw [hd, List.length_drop]
      simp
    have hle : (update_ber_graph hist v).length ≤ 300 := by omega
    rw [List.foldl_cons, ih _ hle, hd, List.length_drop, List.length_append,
      List.length_singleton]
    have hsplit : ((hist ++ [v]) ++ vs).drop (hist.length + 1 - 300) =
        (hist ++ [v]).drop (hist.length + 1 - 300) ++
          vs.drop (hist.length + 1 - 300 - (hist ++ [v]).length) :=
      List.drop_append_eq_append_drop
    have h0 : hist.length + 1 - 300 - (hist ++ [v]).length = 0 := by
      simp only [List.length_append, List.length_singleton]
      omega
    rw [h0, List.drop_zero] at hsplit
    rw [← hsplit, List.drop_drop]
    have harr : (hist ++ [v]) ++ vs = hist ++ v :: vs := by
      rw [List.append_assoc, List.singleton_append]
    rw [harr]
    have harith : hist.length + 1 - 300 + (hist.length + 1 - (hist.length + 1 - 300) +
        vs.length - 300) = hist.length + (v :: vs).length - 300 := by
      simp only [List.length_cons]
      omega
    rw [harith]

/-- C4: for every sequence of `n` BER append operations, the BER series has
length `min n 300` and its contents are exactly the last `min n 300` appended
values in insertion order (the oldest samples are the ones evicted). -/
theorem ber_series_last_min_300 (vs : List ℚ) :
    (List.foldl update_ber_graph [] vs).length = min vs.length 300 ∧
      List.foldl update_ber_graph [] vs = vs.drop (vs.length - 300) := by
  have h := foldl_update_ber_graph vs [] (by simp)
  simp only [List.nil_append, List.length_nil, Nat.zero_add] at h
  refine ⟨?_, h⟩
  rw [h, List.length_drop]
  omega

/-! ### Station location atomicity (C6) -/

/-- C6: for every line matching the station-location pattern, the update of
the station point from the three captured number strings either replaces all
three fields together (when all three `float()` parses succeed) or leaves the
point completely unmodified — never just one or two of the fields. -/
theorem station_update_atomic (p : StationPoint) (g1 g2 g3 : String) :
    (∃ la lo al, pyFloat g1.data = some la ∧ pyFloat g2.data = some lo ∧
        pyFloat g3.data = some al ∧
        station_update p g1 g2 g3 = ⟨some la, some lo, some al⟩) ∨
      station_update p g1 g2 g3 = p := by
  unfold station_update
  rcases h1 : pyFloat g1.data with _ | la
  · right; rfl
  · rcases h2 : pyFloat g2.data with _ | lo
    · right; rfl
    · rcases h3 : pyFloat g3.data with _ | al
      · right; rfl
      · left; exact ⟨la, lo, al, rfl, rfl, rfl, rfl⟩

/-! ### stopRecording idempotence (C8) -/

/-- C8: calling `stop_recording` when recording is off is a complete no-op —
the state (every field, including all process handles) is unchanged and no
error is raised; hence `stop_recording` is idempotent. -/
theorem stop_recording_noop (s : GuiState) (h : s.recording = false) :
    stop_recording s = s := by
  simp [stop_recording, h]

/-- Witness for C8 at the initial state. -/
theorem stop_recording_noop_witness :
    initState.recording = false ∧ stop_recording initState = initState :=
  ⟨rfl, stop_recording_noop initState rfl⟩

/-! ### Preset round-trip (C9) -/

theorem add_preset_freq_nonempty (l : List Preset) (n f p : String)
    (h : ∀ q ∈ l, q.freq ≠ "") : ∀ q ∈ add_preset l n f p, q.freq ≠ "" := by
  intro q hq
  by_cases hf : f = ""
  · simp only [add_preset, hf, if_pos] at hq
    exact h q hq
  · simp only [add_preset, if_neg hf, List.mem_append, List.mem_singleton] at hq
    rcases hq with hmem | rfl
    · exact h q hmem
    · exact hf

theorem import_presets_freq_nonempty (data : List Preset) :
    ∀ q ∈ import_presets data, q.freq ≠ "" := by
  intro q hq
  simp only [import_presets, List.mem_filter, decide_eq_true_eq] at hq
  exact hq.2

/-- C9: exporting a preset list and importing the exported file yields an
equal ordered list of `{name, freq, prog}` records.  The hypothesis — that
every record carries a non-empty frequency — is an invariant of every preset
list the program builds (`add_preset_freq_nonempty`,
`import_presets_freq_nonempty`). -/
theorem preset_roundtrip (l : List Preset) (h : ∀ p ∈ l, p.freq ≠ "") :
    import_presets (export_presets l) = l := by
  unfold import_presets export_presets
  exact List.filter_eq_self.mpr (fun a ha => decide_eq_true (h a ha))

/-- Witness for C9 on a concrete two-station preset list. -/
theorem preset_roundtrip_witness :
    (∀ p ∈ [Preset.mk "KOSU" "91.7" "0", Preset.mk "Classical" "101.9" "2"], p.freq ≠ "") ∧
      import_presets (export_presets
          [Preset.mk "KOSU" "91.7" "0", Preset.mk "Classical" "101.9" "2"]) =
        [Preset.mk "KOSU" "91.7" "0", Preset.mk "Classical" "101.9" "2"] :=
  ⟨by decide, preset_roundtrip _ (by decide)⟩

/-! ### Intentional-stop classification (C1) -/

/-- A state in which the user is intentionally stopping the radio. -/
def stoppingState : GuiState := { initState with stopping_radio := true }

/-- C1 counterexample: with the intentional-stop flag set, a `WriteError`
notification for the producer is still surfaced to the user as an error (a
warning box is shown) and is not reported as a benign user stop — the claim
that every notification kind is suppressed while the flag is set is false. -/
theorem stopping_write_error_still_surfaced :
    stoppingState.stopping_radio = true ∧
      (on_process_error stoppingState "nrsc5" ProcError.writeError).warnings =
        ["nrsc5 error: Write error"] ∧
      stoppingState.warnings = [] ∧
      (on_process_error stoppingState "nrsc5" ProcError.writeError).intentionalReports =
        stoppingState.intentionalReports := by
  refine ⟨rfl, ?_, rfl, ?_⟩ <;> rfl

/-- C1 amended: while the intentional-stop flag is set, a notification of the
`Crashed` error kind, and a finish notification with `CrashExit` status, are
reported as benign "terminated (user stop)" events with no user-visible error;
notification kinds other than these are handled exactly as when the flag is
clear. -/
theorem stopping_crash_reported_benign (s : GuiState) (name : String) (exitCode : Int)
    (h : s.stopping_radio = true) :
    (on_process_error s name ProcError.crashed).warnings = s.warnings ∧
      (on_process_error s name ProcError.crashed).log =
        (name ++ " terminated (user stop).") :: s.log ∧
      (on_process_error s name ProcError.crashed).intentionalReports =
        s.intentionalReports + 1 ∧
      (on_process_finished s name exitCode ExitStatus.crashExit).warnings = s.warnings ∧
      (on_process_finished s name exitCode ExitStatus.crashExit).log =
        (name ++ " terminated (user stop).") :: s.log ∧
      (on_process_finished s name exitCode ExitStatus.crashExit).intentionalReports =
        s.intentionalReports + 1 := by
  simp [on_process_error, on_process_finished, h]

/-- Witness for the amended C1 at a concrete stopping state. -/
theorem stopping_crash_reported_benign_witness :
    stoppingState.stopping_radio = true ∧
      ((on_process_error stoppingState "ffplay" ProcError.crashed).warnings =
          stoppingState.warnings ∧
        (on_process_error stoppingState "ffplay" ProcError.crashed).log =
          ("ffplay" ++ " terminated (user stop).") :: stoppingState.log ∧
        (on_process_error stoppingState "ffplay" ProcError.crashed).intentionalReports =
          stoppingState.intentionalReports + 1 ∧
        (on_process_finished stoppingState "ffplay" 0 ExitStatus.crashExit).warnings =
          stoppingState.warnings ∧
        (on_process_finished stoppingState "ffplay" 0 ExitStatus.crashExit).log =
          ("ffplay" ++ " terminated (user stop).") :: stoppingState.log ∧
        (on_process_finished stoppingState "ffplay" 0 ExitStatus.crashExit).intentionalReports =
          stoppingState.intentionalReports + 1) :=
  ⟨rfl, stopping_crash_reported_benign stoppingState "ffplay" 0 rfl⟩

/-! ### Unexpected producer exit (C2) -/

/-- C2: when the producer exits on its own while the session is running and
the intentional-stop flag is clear, exactly one automatic full stop sequence
executes — recording is stopped, the producer, player and recorder handles are
torn down, the state returns to Idle — with no double teardown (a further exit
notification triggers no second stop), and the exit is logged as a real exit,
not reported as an intentional stop. -/
theorem unexpected_exit_single_stop (s : GuiState) (exitCode exitCode2 : Int)
    (exitStatus exitStatus2 : ExitStatus)
    (hrun : s.radio_running = true) (hstop : s.stopping_radio = false) :
    (on_nrsc5_finished s exitCode exitStatus).stops = s.stops + 1 ∧
      (on_nrsc5_finished s exitCode exitStatus).radio_running = false ∧
      (on_nrsc5_finished s exitCode exitStatus).recording = false ∧
      (on_nrsc5_finished s exitCode exitStatus).proc_nrsc5 = none ∧
      (on_nrsc5_finished s exitCode exitStatus).proc_play = none ∧
      (on_nrsc5_finished s exitCode exitStatus).status_text = "Status: Idle" ∧
      (on_nrsc5_finished s exitCode exitStatus).intentionalReports = s.intentionalReports ∧
      (on_nrsc5_finished s exitCode exitStatus).log =
        ("nrsc5 finished with code " ++ toString exitCode ++ ", status: " ++
          (if exitStatus = ExitStatus.normalExit then "normal" else "crashed")) :: s.log ∧
      (on_nrsc5_finished (on_nrsc5_finished s exitCode exitStatus) exitCode2 exitStatus2).stops =
        (on_nrsc5_finished s exitCode exitStatus).stops := by
  cases hrec : s.recording
  · simp [on_nrsc5_finished, on_process_finished, stop_stream, stop_recording,
      hstop, hrun, hrec]
  · simp [on_nrsc5_finished, on_process_finished, stop_stream, stop_recording,
      hstop, hrun, hrec]

/-- Witness for C2: a running session whose producer crashes. -/
def runningState : GuiState :=
  { initState with radio_running := true, proc_nrsc5 := some 1, proc_play := some 0,
                   nextHandle := 2, record_btn_enabled := true,
                   radio_btn_text := "Stop Radio", status_text := "Status: Listening" }

theorem unexpected_exit_single_stop_witness :
    runningState.radio_running = true ∧ runningState.stopping_radio = false ∧
      ((on_nrsc5_finished runningState 1 ExitStatus.crashExit).stops =
        runningState.stops + 1 ∧
      (on_nrsc5_finished runningState 1 ExitStatus.crashExit).radio_running = false ∧
      (on_nrsc5_finished runningState 1 ExitStatus.crashExit).recording = false ∧
      (on_nrsc5_finished runningState 1 ExitStatus.crashExit).proc_nrsc5 = none ∧
      (on_nrsc5_finished runningState 1 ExitStatus.crashExit).proc_play = none ∧
      (on_nrsc5_finished runningState 1 ExitStatus.crashExit).status_text = "Status: Idle" ∧
      (on_nrsc5_finished runningState 1 ExitStatus.crashExit).intentionalReports =
        runningState.intentionalReports ∧
      (on_nrsc5_finished runningState 1 ExitStatus.crashExit).log =
        ("nrsc5 finished with code " ++ toString (1 : Int) ++ ", status: " ++
          (if ExitStatus.crashExit = ExitStatus.normalExit then "normal" else "crashed")) ::
          runningState.log ∧
      (on_nrsc5_finished (on_nrsc5_finished runningState 1 ExitStatus.crashExit) 1
          ExitStatus.crashExit).stops =
        (on_nrsc5_finished runningState 1 ExitStatus.crashExit).stops) :=
  ⟨rfl, rfl, unexpected_exit_single_stop runningState 1 1 ExitStatus.crashExit
    ExitStatus.crashExit rfl rfl⟩

/-! ### Start-input validation aborts the start (C5) -/

/-- The invalid-input conditions named by the claim: non-empty host with an
empty, non-numeric or out-of-range port, or a non-numeric or non-positive
frequency. -/
def InvalidStart (i : StartInputs) : Prop :=
  i.freqVal = none ∨
    (∃ q, i.freqVal = some q ∧ q ≤ 0) ∨
    (i.host ≠ "" ∧
      (i.portText = "" ∨ i.portVal = none ∨
        ∃ p, i.portVal = some p ∧ ¬(1 ≤ p ∧ p ≤ 65535)))

theorem validate_start_inputs_fails (i : StartInputs) (h : InvalidStart i) :
    (validate_start_inputs i).isSome = true := by
  rcases h with hf | ⟨q, hq, hle⟩ | ⟨hh, hp⟩
  · simp [validate_start_inputs, hf]
  · simp [validate_start_inputs, hq, hle]
  · rcases hfv : i.freqVal with _ | q
    · simp [validate_start_inputs, hfv]
    · by_cases hq : q ≤ 0
      · simp [validate_start_inputs, hfv, hq]
      · simp only [validate_start_inputs, hfv]
        rw [if_neg hq, if_neg hh]
        by_cases hpt : i.portText = ""
        · rw [if_pos hpt]
          simp
        · rw [if_neg hpt]
          rcases hp with hp1 | hp1 | ⟨p, hp1, hp2⟩
          · exact absurd hp1 hpt
          · simp [hp1]
          · simp only [hp1]
            rw [if_neg hp2]
            simp

/-- C5: every attempt to start the session with invalid inputs — a non-empty
remote host together with an empty, non-numeric or out-of-range port, or a
non-numeric or non-positive frequency — aborts with exactly one user-visible
validation error before any process is spawned: no process handle is created
and all process references are unchanged. -/
theorem invalid_start_no_spawn (i : StartInputs) (playStartOk nrscStartOk : Bool)
    (s : GuiState) (hidle : s.radio_running = false) (hinv : InvalidStart i) :
    (start_stream i playStartOk nrscStartOk s).nextHandle = s.nextHandle ∧
      (start_stream i playStartOk nrscStartOk s).proc_nrsc5 = s.proc_nrsc5 ∧
      (start_stream i playStartOk nrscStartOk s).proc_play = s.proc_play ∧
      (start_stream i playStartOk nrscStartOk s).proc_rec = s.proc_rec ∧
      (start_stream i playStartOk nrscStartOk s).radio_running = false ∧
      (start_stream i playStartOk nrscStartOk s).warnings.length = s.warnings.length + 1 := by
  have hsome := validate_start_inputs_fails i hinv
  rcases hv : validate_start_inputs i with _ | msg
  · rw [hv] at hsome
    simp at hsome
  · simp [start_stream, hidle, hv]

/-- Witness for C5: host set, port field empty. -/
def emptyPortInputs : StartInputs :=
  { freqVal := some (1069 / 10), host := "192.168.0.162", portText := "", portVal := none }

theorem invalid_start_no_spawn_witness :
    initState.radio_running = false ∧ InvalidStart emptyPortInputs ∧
      ((start_stream emptyPortInputs true true initState).nextHandle = initState.nextHandle ∧
        (start_stream emptyPortInputs true true initState).proc_nrsc5 = initState.proc_nrsc5 ∧
        (start_stream emptyPortInputs true true initState).proc_play = initState.proc_play ∧
        (start_stream emptyPortInputs true true initState).proc_rec = initState.proc_rec ∧
        (start_stream emptyPortInputs true true initState).radio_running = false ∧
        (start_stream emptyPortInputs true true initState).warnings.length =
          initState.warnings.length + 1) :=
  ⟨rfl, Or.inr (Or.inr ⟨by decide, Or.inl rfl⟩),
    invalid_start_no_spawn emptyPortInputs true true initState rfl
      (Or.inr (Or.inr ⟨by decide, Or.inl rfl⟩))⟩

/-! ### BER sample sign (C7) -/

/-- C7 counterexample: the BER regex group class `[0-9eE+-]+` accepts a leading
minus sign, so the diagnostic line `"BER: -1"` matches with group `"-1"`,
parses to `-1`, and stores `-100` in the BER series — a negative sample. -/
theorem ber_negative_sample_stored :
    processBerLine [] "BER: -1" = [(-100 : ℚ)] ∧ ((-100 : ℚ) < 0) := by
  constructor
  · have h0 : berSearch (String.data "BER: -1") = some ['-', '1'] := by decide
    have h1 : pyFloat ['-', '1'] = some (-1 : ℚ) := by
      simp +decide [pyFloat, digitsVal, digitVal]
    simp [processBerLine, h0, h1, update_ber_graph, berMaxPoints]
  · norm_num

theorem mem_update_ber_graph (hist : List ℚ) (v x : ℚ)
    (h : x ∈ update_ber_graph hist v) : x ∈ hist ∨ x = v := by
  unfold update_ber_graph at h
  have hm : x ∈ hist ++ [v] := by
    split_ifs at h with h1
    · exact List.mem_of_mem_drop h
    · exact h
  rcases List.mem_append.mp hm with h2 | h2
  · exact Or.inl h2
  · exact Or.inr (List.mem_singleton.mp h2)

/-- C7 amended: every sample stored by a BER diagnostic line is 100 times the
number parsed from the matched group, so the series stays non-negative
provided every matched BER number parses to a non-negative value; a matched
negative number (e.g. `"BER: -1"`) stores a negative sample. -/
theorem ber_nonneg_of_parsed_nonneg (hist : List ℚ) (line : String)
    (hhist : ∀ x ∈ hist, 0 ≤ x)
    (hparse : ∀ g v, berSearch line.data = some g → pyFloat g = some v → 0 ≤ v) :
    ∀ x ∈ processBerLine hist line, 0 ≤ x := by
  intro x hx
  rcases hg : berSearch line.data with _ | g
  · simp only [processBerLine, hg] at hx
    exact hhist x hx
  · rcases hv : pyFloat g with _ | v
    · simp only [processBerLine, hg, hv] at hx
      exact hhist x hx
    · simp only [processBerLine, hg, hv] at hx
      rcases mem_update_ber_graph hist (v * 100) x hx with h1 | rfl
      · exact hhist x h1
      · have h0 : (0 : ℚ) ≤ v := hparse g v hg hv
        positivity

/-- Witness for the amended C7: the spec scenario line `"BER: 0.015"` stores
`1.5` (percent), keeping the series non-negative. -/
theorem ber_nonneg_of_parsed_nonneg_witness :
    processBerLine [] "BER: 0.015" = [(3 : ℚ) / 2] ∧
      ∀ x ∈ processBerLine [] "BER: 0.015", 0 ≤ x := by
  have h0 : berSearch (String.data "BER: 0.015") = some ['0', '.', '0', '1', '5'] := by decide
  have h1 : pyFloat ['0', '.', '0', '1', '5'] = some ((3 : ℚ) / 200) := by
    simp +decide [pyFloat, digitsVal, digitVal]
    norm_num
  constructor
  · simp [processBerLine, h0, h1, update_ber_graph, berMaxPoints]
    norm_num
  refine ber_nonneg_of_parsed_nonneg [] "BER: 0.015" (by simp) ?_
  intro g v hg hv
  rw [h0] at hg
  rcases Option.some.inj hg with rfl
  rw [h1] at hv
  rcases Option.some.inj hv with rfl
  norm_num

/-! ### Projection lemmas for the state operations -/

theorem stop_recording_recording (s : GuiState) : (stop_recording s).recording = false := by
  unfold stop_recording
  split_ifs with h h2
  · exact h
  · rfl
  · rfl

theorem stop_recording_radio_running (s : GuiState) :
    (stop_recording s).radio_running = s.radio_running := by
  unfold stop_recording
  split_ifs <;> rfl

theorem stop_recording_nextHandle (s : GuiState) :
    (stop_recording s).nextHandle = s.nextHandle := by
  unfold stop_recording
  split_ifs <;> rfl

theorem stop_recording_recWrites (s : GuiState) :
    (stop_recording s).recWrites = s.recWrites := by
  unfold stop_recording
  split_ifs <;> rfl

theorem stop_stream_recording (s : GuiState) : (stop_stream s).recording = false :=
  stop_recording_recording s

theorem stop_stream_radio_running (s : GuiState) : (stop_stream s).radio_running = false := rfl

theorem stop_stream_nextHandle (s : GuiState) : (stop_stream s).nextHandle = s.nextHandle :=
  stop_recording_nextHandle s

theorem stop_stream_recWrites (s : GuiState) : (stop_stream s).recWrites = s.recWrites :=
  stop_recording_recWrites s

theorem update_ui_state_radio_running (b : Bool) (s : GuiState) :
    (update_ui_state b s).radio_running = s.radio_running := by
  unfold update_ui_state
  split_ifs <;> rfl

theorem update_ui_state_recording (b : Bool) (s : GuiState) :
    (update_ui_state b s).recording = s.recording := by
  unfold update_ui_state
  split_ifs <;> rfl

theorem update_ui_state_proc_rec (b : Bool) (s : GuiState) :
    (update_ui_state b s).proc_rec = s.proc_rec := by
  unfold update_ui_state
  split_ifs <;> rfl

theorem update_ui_state_nextHandle (b : Bool) (s : GuiState) :
    (update_ui_state b s).nextHandle = s.nextHandle := by
  unfold update_ui_state
  split_ifs <;> rfl

theorem update_ui_state_recWrites (b : Bool) (s : GuiState) :
    (update_ui_state b s).recWrites = s.recWrites := by
  unfold update_ui_state
  split_ifs <;> rfl

theorem on_process_error_flags (s : GuiState) (name : String) (e : ProcError) :
    (on_process_error s name e).recording = s.recording ∧
      (on_process_error s name e).radio_running = s.radio_running ∧
      (on_process_error s name e).proc_rec = s.proc_rec ∧
      (on_process_error s name e).nextHandle = s.nextHandle ∧
      (on_process_error s name e).recWrites = s.recWrites := by
  unfold on_process_error
  split_ifs <;> exact ⟨rfl, rfl, rfl, rfl, rfl⟩

theorem on_process_finished_flags (s : GuiState) (name : String) (c : Int) (st : ExitStatus) :
    (on_process_finished s name c st).recording = s.recording ∧
      (on_process_finished s name c st).radio_running = s.radio_running ∧
      (on_process_finished s name c st).proc_rec = s.proc_rec ∧
      (on_process_finished s name c st).nextHandle = s.nextHandle ∧
      (on_process_finished s name c st).recWrites = s.recWrites ∧
      (on_process_finished s name c st).stopping_radio = s.stopping_radio := by
  unfold on_process_finished
  split_ifs <;> exact ⟨rfl, rfl, rfl, rfl, rfl, rfl⟩

theorem distribute_audio_data_recording (d p r : Bool) (s : GuiState) :
    (distribute_audio_data d p r s).recording = s.recording := by
  unfold distribute_audio_data
  by_cases h1 : s.proc_nrsc5 = none
  · rw [if_pos h1]
  · rw [if_neg h1]
    by_cases h2 : d = false
    · rw [if_pos h2]
    · rw [if_neg h2]
      by_cases h3 : s.recording = true
      · rw [if_pos h3]
        cases s.proc_rec with
        | none => rfl
        | some hh => cases r <;> rfl
      · rw [if_neg h3]

theorem distribute_audio_data_radio_running (d p r : Bool) (s : GuiState) :
    (distribute_audio_data d p r s).radio_running = s.radio_running := by
  unfold distribute_audio_data
  by_cases h1 : s.proc_nrsc5 = none
  · rw [if_pos h1]
  · rw [if_neg h1]
    by_cases h2 : d = false
    · rw [if_pos h2]
    · rw [if_neg h2]
      by_cases h3 : s.recording = true
      · rw [if_pos h3]
        cases s.proc_rec with
        | none => rfl
        | some hh => cases r <;> rfl
      · rw [if_neg h3]

theorem distribute_audio_data_proc_rec (d p r : Bool) (s : GuiState) :
    (distribute_audio_data d p r s).proc_rec = s.proc_rec := by
  unfold distribute_audio_data
  by_cases h1 : s.proc_nrsc5 = none
  · rw [if_pos h1]
  · rw [if_neg h1]
    by_cases h2 : d = false
    · rw [if_pos h2]
    · rw [if_neg h2]
      by_cases h3 : s.recording = true
      · rw [if_pos h3]
        cases hpr : s.proc_rec with
        | none => exact hpr
        | some hh =>
          cases r with
          | false => exact hpr
          | true => rfl
      · rw [if_neg h3]

theorem distribute_audio_data_nextHandle (d p r : Bool) (s : GuiState) :
    (distribute_audio_data d p r s).nextHandle = s.nextHandle := by
  unfold distribute_audio_data
  by_cases h1 : s.proc_nrsc5 = none
  · rw [if_pos h1]
  · rw [if_neg h1]
    by_cases h2 : d = false
    · rw [if_pos h2]
    · rw [if_neg h2]
      by_cases h3 : s.recording = true
      · rw [if_pos h3]
        cases s.proc_rec with
        | none => rfl
        | some hh => cases r <;> rfl
      · rw [if_neg h3]

theorem distribute_audio_data_recWrites (d p r : Bool) (s : GuiState) :
    (distribute_audio_data d p r s).recWrites = s.recWrites ∨
      (s.recording = true ∧ ∃ hh, s.proc_rec = some hh ∧
        (distribute_audio_data d p r s).recWrites = hh :: s.recWrites) := by
  unfold distribute_audio_data
  by_cases h1 : s.proc_nrsc5 = none
  · rw [if_pos h1]
    left
    rfl
  · rw [if_neg h1]
    by_cases h2 : d = false
    · rw [if_pos h2]
      left
      rfl
    · rw [if_neg h2]
      by_cases h3 : s.recording = true
      · rw [if_pos h3]
        cases hpr : s.proc_rec with
        | none => left; rfl
        | some hh =>
          cases r with
          | false => left; rfl
          | true => right; exact ⟨h3, hh, rfl, rfl⟩
      · rw [if_neg h3]
        left
        rfl

/-- Branch analysis of `start_stream`: it returns the state unchanged, fails
before touching the running/recording flags, succeeds with the running flag
set, or rolls back through `stop_stream` (recording off). -/
theorem start_stream_cases (i : StartInputs) (p n : Bool) (s : GuiState) :
    start_stream i p n s = s ∨
      ((start_stream i p n s).recording = s.recording ∧
        (start_stream i p n s).radio_running = s.radio_running ∧
        (start_stream i p n s).proc_rec = s.proc_rec ∧
        s.nextHandle ≤ (start_stream i p n s).nextHandle ∧
        (start_stream i p n s).recWrites = s.recWrites) ∨
      ((start_stream i p n s).recording = s.recording ∧
        (start_stream i p n s).radio_running = true ∧
        (start_stream i p n s).proc_rec = s.proc_rec ∧
        s.nextHandle ≤ (start_stream i p n s).nextHandle ∧
        (start_stream i p n s).recWrites = s.recWrites) ∨
      ((start_stream i p n s).recording = false ∧
        s.nextHandle ≤ (start_stream i p n s).nextHandle ∧
        (start_stream i p n s).recWrites = s.recWrites) := by
  unfold start_stream
  by_cases h1 : s.radio_running = true
  · rw [if_pos h1]
    left
    rfl
  · rw [if_neg h1]
    rcases hv : validate_start_inputs i with _ | msg
    · by_cases h2 : p = false
      · rw [if_pos h2]
        right
        left
        exact ⟨rfl, rfl, rfl, Nat.le_succ _, rfl⟩
      · rw [if_neg h2]
        by_cases h3 : n = true
        · rw [if_pos h3]
          right
          right
          left
          refine ⟨?_, ?_, ?_, ?_, ?_⟩
          · show (update_ui_state true _).recording = s.recording
            rw [update_ui_state_recording]
          · show (update_ui_state true _).radio_running = true
            rw [update_ui_state_radio_running]
          · show (update_ui_state true _).proc_rec = s.proc_rec
            rw [update_ui_state_proc_rec]
          · show s.nextHandle ≤ (update_ui_state true _).nextHandle
            rw [update_ui_state_nextHandle]
            exact Nat.le_add_right _ 2
          · show (update_ui_state true _).recWrites = s.recWrites
            rw [update_ui_state_recWrites]
        · rw [if_neg h3]
          right
          right
          right
          refine ⟨stop_stream_recording _, ?_, stop_stream_recWrites _⟩
          rw [stop_stream_nextHandle]
          exact Nat.le_add_right _ 2
    · right
      left
      exact ⟨rfl, rfl, rfl, Nat.le_refl _, rfl⟩

/-! ### Invariant: recording implies running (C3) -/

/-- The invariant of C3 as a predicate on states. -/
def RecInv (s : GuiState) : Prop := s.recording = true → s.radio_running = true

theorem recInv_stop_stream (s : GuiState) : RecInv (stop_stream s) := by
  intro h
  rw [stop_stream_recording] at h
  cases h

theorem recInv_start_stream (i : StartInputs) (p n : Bool) (s : GuiState) (hs : RecInv s) :
    RecInv (start_stream i p n s) := by
  rcases start_stream_cases i p n s with h | ⟨h1, h2, -⟩ | ⟨h1, h2, -⟩ | ⟨h1, -⟩
  · rw [h]
    exact hs
  · intro h
    rw [h1] at h
    rw [h2]
    exact hs h
  · intro h
    exact h2
  · intro h
    rw [h1] at h
    cases h

theorem recInv_start_recording (ok : Bool) (s : GuiState) (hs : RecInv s) :
    RecInv (start_recording ok s) := by
  unfold start_recording
  by_cases h1 : s.radio_running = false
  · rw [if_pos h1]
    exact hs
  · rw [if_neg h1]
    by_cases h2 : ok = true
    · rw [if_pos h2]
      intro _
      show s.radio_running = true
      cases hb : s.radio_running
      · exact absurd hb h1
      · rfl
    · rw [if_neg h2]
      intro h
      show s.radio_running = true
      cases hb : s.radio_running
      · exact absurd hb h1
      · rfl

theorem recInv_stop_recording (s : GuiState) : RecInv (stop_recording s) := by
  intro h
  rw [stop_recording_recording] at h
  cases h

theorem recInv_step (s : GuiState) (e : Event) (hs : RecInv s) : RecInv (step s e) := by
  cases e with
  | evStartStream i p n => exact recInv_start_stream i p n s hs
  | evToggleRadio i p n =>
    show RecInv (toggle_radio i p n s)
    unfold toggle_radio
    by_cases h1 : s.radio_running = true
    · rw [if_pos h1]
      intro h
      have h2 := stop_stream_recording { s with stopping_radio := true }
      exact absurd (h2 ▸ h) (by simp)
    · rw [if_neg h1]
      exact recInv_start_stream i p n s hs
  | evTuneRestart i p n =>
    show RecInv (tune_restart i p n s)
    unfold tune_restart
    by_cases h1 : s.radio_running = true
    · rw [if_pos h1]
      refine recInv_start_stream i p n _ ?_
      intro h
      have h2 := stop_stream_recording { s with stopping_radio := true }
      exact absurd (h2 ▸ h) (by simp)
    · rw [if_neg h1]
      exact hs
  | evStartRecording ok => exact recInv_start_recording ok s hs
  | evStopRecording => exact recInv_stop_recording s
  | evToggleRecording ok =>
    show RecInv (toggle_recording ok s)
    unfold toggle_recording
    by_cases h1 : s.recording = true
    · rw [if_pos h1]
      exact recInv_stop_recording s
    · rw [if_neg h1]
      exact recInv_start_recording ok s hs
  | evNrsc5Finished c st =>
    show RecInv (on_nrsc5_finished s c st)
    unfold on_nrsc5_finished
    by_cases h1 : (on_process_finished s "nrsc5" c st).radio_running = true ∧
        (on_process_finished s "nrsc5" c st).stopping_radio = false
    · rw [if_pos h1]
      exact recInv_stop_stream _
    · rw [if_neg h1]
      intro h
      obtain ⟨hr, hrr, -⟩ := on_process_finished_flags s "nrsc5" c st
      rw [hr] at h
      rw [hrr]
      exact hs h
  | evProcError n e =>
    show RecInv (on_process_error s n e)
    intro h
    obtain ⟨hr, hrr, -⟩ := on_process_error_flags s n e
    rw [hr] at h
    rw [hrr]
    exact hs h
  | evProcFinished n c st =>
    show RecInv (on_process_finished s n c st)
    intro h
    obtain ⟨hr, hrr, -⟩ := on_process_finished_flags s n c st
    rw [hr] at h
    rw [hrr]
    exact hs h
  | evDistribute d p r =>
    show RecInv (distribute_audio_data d p r s)
    intro h
    rw [distribute_audio_data_recording] at h
    rw [distribute_audio_data_radio_running]
    exact hs h
  | evClose =>
    show RecInv (close_event s)
    exact recInv_stop_stream _

theorem recInv_run (s : GuiState) (es : List Event) (hs : RecInv s) : RecInv (run s es) := by
  induction es generalizing s with
  | nil => exact hs
  | cons e es ih => exact ih (step s e) (recInv_step s e hs)

/-- C3: in every reachable state, the recording flag implies the radio is
running — `start_recording` refuses to record while the radio is not running,
and every path that clears the running flag turns recording off first. -/
theorem recording_implies_running (es : List Event)
    (h : (run initState es).recording = true) : (run initState es).radio_running = true :=
  recInv_run initState es (fun hr => absurd hr (by decide)) h

/-- A valid start followed by a successful recording start, for the C3
witness. -/
def demoInputs : StartInputs :=
  { freqVal := some 107, host := "", portText := "", portVal := none }

def demoTrace : List Event :=
  [Event.evStartStream demoInputs true true, Event.evStartRecording true]

/-- Witness for C3 on a concrete trace that reaches a recording state. -/
theorem recording_implies_running_witness :
    (run initState demoTrace).recording = true ∧
      (run initState demoTrace).radio_running = true := by
  have h : (run initState demoTrace).recording = true := by decide
  exact ⟨h, recording_implies_running demoTrace h⟩

/-! ### Isolation of a failed recorder start (C10) -/

/-- The isolation invariant for a dead recorder handle `h`: the handle is
stale (allocation moved past it), the recorder in use — if any — is a
different process, and no audio write has ever gone to `h`. -/
def RecIso (h : Nat) (s : GuiState) : Prop :=
  h < s.nextHandle ∧ (s.recording = true → s.proc_rec ≠ some h) ∧ h ∉ s.recWrites

theorem recIso_stop_recording (h : Nat) (s : GuiState) (hs : RecIso h s) :
    RecIso h (stop_recording s) := by
  refine ⟨?_, ?_, ?_⟩
  · rw [stop_recording_nextHandle]
    exact hs.1
  · intro hx
    rw [stop_recording_recording] at hx
    cases hx
  · rw [stop_recording_recWrites]
    exact hs.2.2

theorem recIso_stop_stream (h : Nat) (s : GuiState) (hs : RecIso h s) :
    RecIso h (stop_stream s) := by
  refine ⟨?_, ?_, ?_⟩
  · rw [stop_stream_nextHandle]
    exact hs.1
  · intro hx
    rw [stop_stream_recording] at hx
    cases hx
  · rw [stop_stream_recWrites]
    exact hs.2.2

theorem recIso_start_recording (h : Nat) (ok : Bool) (s : GuiState) (hs : RecIso h s) :
    RecIso h (start_recording ok s) := by
  unfold start_recording
  by_cases hr : s.radio_running = false
  · rw [if_pos hr]
    exact hs
  · rw [if_neg hr]
    by_cases hok : ok = true
    · rw [if_pos hok]
      refine ⟨Nat.lt_succ_of_lt hs.1, ?_, hs.2.2⟩
      intro _ heq
      have h1 : s.nextHandle = h := Option.some.inj heq
      have h2 := hs.1
      omega
    · rw [if_neg hok]
      refine ⟨Nat.lt_succ_of_lt hs.1, ?_, hs.2.2⟩
      intro _ heq
      have h1 : s.nextHandle = h := Option.some.inj heq
      have h2 := hs.1
      omega

theorem recIso_start_stream (h : Nat) (i : StartInputs) (p n : Bool) (s : GuiState)
    (hs : RecIso h s) : RecIso h (start_stream i p n s) := by
  rcases start_stream_cases i p n s with heq | ⟨h1, h2, h3, h4, h5⟩ | ⟨h1, h2, h3, h4, h5⟩ |
    ⟨h1, h2, h3⟩
  · rw [heq]
    exact hs
  · refine ⟨Nat.lt_of_lt_of_le hs.1 h4, ?_, ?_⟩
    · intro hx
      rw [h1] at hx
      rw [h3]
      exact hs.2.1 hx
    · rw [h5]
      exact hs.2.2
  · refine ⟨Nat.lt_of_lt_of_le hs.1 h4, ?_, ?_⟩
    · intro hx
      rw [h1] at hx
      rw [h3]
      exact hs.2.1 hx
    · rw [h5]
      exact hs.2.2
  · refine ⟨Nat.lt_of_lt_of_le hs.1 h2, ?_, ?_⟩
    · intro hx
      rw [h1] at hx
      cases hx
    · rw [h3]
      exact hs.2.2

theorem recIso_on_process_error (h : Nat) (s : GuiState) (name : String) (e : ProcError)
    (hs : RecIso h s) : RecIso h (on_process_error s name e) := by
  obtain ⟨hr, -, hpr, hnh, hrw⟩ := on_process_error_flags s name e
  refine ⟨?_, ?_, ?_⟩
  · rw [hnh]
    exact hs.1
  · intro hx
    rw [hr] at hx
    rw [hpr]
    exact hs.2.1 hx
  · rw [hrw]
    exact hs.2.2

theorem recIso_on_process_finished (h : Nat) (s : GuiState) (name : String) (c : Int)
    (st : ExitStatus) (hs : RecIso h s) : RecIso h (on_process_finished s name c st) := by
  obtain ⟨hr, -, hpr, hnh, hrw, -⟩ := on_process_finished_flags s name c st
  refine ⟨?_, ?_, ?_⟩
  · rw [hnh]
    exact hs.1
  · intro hx
    rw [hr] at hx
    rw [hpr]
    exact hs.2.1 hx
  · rw [hrw]
    exact hs.2.2

theorem recIso_distribute (h : Nat) (d p r : Bool) (s : GuiState) (hs : RecIso h s) :
    RecIso h (distribute_audio_data d p r s) := by
  refine ⟨?_, ?_, ?_⟩
  · rw [distribute_audio_data_nextHandle]
    exact hs.1
  · intro hx
    rw [distribute_audio_data_recording] at hx
    rw [distribute_audio_data_proc_rec]
    exact hs.2.1 hx
  · rcases distribute_audio_data_recWrites d p r s with hrw | ⟨hrec, hh, hpr, hrw⟩
    · rw [hrw]
      exact hs.2.2
    · rw [hrw]
      intro hmem
      rcases List.mem_cons.mp hmem with heq | hmem2
      · exact hs.2.1 hrec (heq ▸ hpr)
      · exact hs.2.2 hmem2

theorem recIso_step (h : Nat) (s : GuiState) (e : Event) (hs : RecIso h s) :
    RecIso h (step s e) := by
  cases e with
  | evStartStream i p n => exact recIso_start_stream h i p n s hs
  | evToggleRadio i p n =>
    show RecIso h (toggle_radio i p n s)
    unfold toggle_radio
    by_cases h1 : s.radio_running = true
    · rw [if_pos h1]
      have h2 := recIso_stop_stream h { s with stopping_radio := true } hs
      exact ⟨h2.1, h2.2.1, h2.2.2⟩
    · rw [if_neg h1]
      exact recIso_start_stream h i p n s hs
  | evTuneRestart i p n =>
    show RecIso h (tune_restart i p n s)
    unfold tune_restart
    by_cases h1 : s.radio_running = true
    · rw [if_pos h1]
      refine recIso_start_stream h i p n _ ?_
      have h2 := recIso_stop_stream h { s with stopping_radio := true } hs
      exact ⟨h2.1, h2.2.1, h2.2.2⟩
    · rw [if_neg h1]
      exact hs
  | evStartRecording ok => exact recIso_start_recording h ok s hs
  | evStopRecording => exact recIso_stop_recording h s hs
  | evToggleRecording ok =>
    show RecIso h (toggle_recording ok s)
    unfold toggle_recording
    by_cases h1 : s.recording = true
    · rw [if_pos h1]
      exact recIso_stop_recording h s hs
    · rw [if_neg h1]
      exact recIso_start_recording h ok s hs
  | evNrsc5Finished c st =>
    show RecIso h (on_nrsc5_finished s c st)
    unfold on_nrsc5_finished
    have h2 := recIso_on_process_finished h s "nrsc5" c st hs
    by_cases h1 : (on_process_finished s "nrsc5" c st).radio_running = true ∧
        (on_process_finished s "nrsc5" c st).stopping_radio = false
    · rw [if_pos h1]
      exact recIso_stop_stream h _ h2
    · rw [if_neg h1]
      exact h2
  | evProcError n e => exact recIso_on_process_error h s n e hs
  | evProcFinished n c st => exact recIso_on_process_finished h s n c st hs
  | evDistribute d p r => exact recIso_distribute h d p r s hs
  | evClose =>
    show RecIso h (close_event s)
    refine recIso_stop_stream h _ ?_
    exact ⟨hs.1, hs.2.1, hs.2.2⟩

theorem recIso_run (h : Nat) (s : GuiState) (es : List Event) (hs : RecIso h s) :
    RecIso h (run s es) := by
  induction es generalizing s with
  | nil => exact hs
  | cons e es ih => exact ih (step s e) (recIso_step h s e hs)

/-- C10: when the recorder process fails to start within its wait, the
recording flag stays off, the duration timer is untouched, the record button
text and style are unchanged, only a warning is shown — and no audio bytes
are ever forwarded to that recorder handle, in this event and every possible
subsequent one. -/
theorem recorder_start_failure_isolated (s : GuiState) (es : List Event)
    (hrun : s.radio_running = true) (hrec : s.recording = false)
    (hw : s.nextHandle ∉ s.recWrites) :
    (start_recording false s).recording = false ∧
      (start_recording false s).timer_running = s.timer_running ∧
      (start_recording false s).record_btn_text = s.record_btn_text ∧
      (start_recording false s).record_btn_style = s.record_btn_style ∧
      (start_recording false s).warnings =
        "Could not start ffmpeg recorder." :: s.warnings ∧
      s.nextHandle ∉ (run (start_recording false s) es).recWrites := by
  have hnr : ¬ s.radio_running = false := by
    rw [hrun]
    simp
  have hres : start_recording false s =
      { s with proc_rec := some s.nextHandle, nextHandle := s.nextHandle + 1,
               warnings := "Could not start ffmpeg recorder." :: s.warnings } := by
    unfold start_recording
    rw [if_neg hnr, if_neg Bool.false_ne_true]
  rw [hres]
  refine ⟨hrec, rfl, rfl, rfl, rfl, ?_⟩
  have hiso : RecIso s.nextHandle
      { s with proc_rec := some s.nextHandle, nextHandle := s.nextHandle + 1,
               warnings := "Could not start ffmpeg recorder." :: s.warnings } := by
    refine ⟨Nat.lt_succ_self _, ?_, hw⟩
    intro hx
    exact absurd hx (by simp [hrec])
  exact (recIso_run s.nextHandle _ es hiso).2.2

/-- A concrete follow-up trace for the C10 witness. -/
def afterFailTrace : List Event :=
  [Event.evDistribute true true true, Event.evStopRecording,
    Event.evNrsc5Finished 1 ExitStatus.crashExit]

/-- Witness for C10 at a concrete running state and follow-up trace. -/
theorem recorder_start_failure_isolated_witness :
    (runningState.radio_running = true ∧ runningState.recording = false ∧
        runningState.nextHandle ∉ runningState.recWrites) ∧
      ((start_recording false runningState).recording = false ∧
        (start_recording false runningState).timer_running = runningState.timer_running ∧
        (start_recording false runningState).record_btn_text = runningState.record_btn_text ∧
        (start_recording false runningState).record_btn_style =
          runningState.record_btn_style ∧
        (start_recording false runningState).warnings =
          "Could not start ffmpeg recorder." :: runningState.warnings ∧
        runningState.nextHandle ∉
          (run (start_recording false runningState) afterFailTrace).recWrites) :=
  ⟨⟨rfl, rfl, by decide⟩,
    recorder_start_failure_isolated runningState afterFailTrace rfl rfl (by decide)⟩

end Nrsc5Gui
